import Mathlib

/-!
# Verification of `exif_detect_wrong_createdate.py`

A shallow embedding of the photo-metadata sanitizer's core pipeline:

* the Timestamp Parser (`try_parse_date`, built on Python's
  `datetime.strptime`, modelled for the format directives the program
  uses: `%Y %m %d %H %M %S %f` plus literal characters and whitespace);
* the Metadata Extractor (`MetadataProcessor.get_creation_date`);
* the Directory Classifier and Report Writer
  (`MetadataProcessor.process_directory`).

External capabilities (PIL image decoding, ffmpeg container probing,
the file system) are modelled as explicit inputs: each file path comes
with the outcome the external libraries would report for it, and the
report writer is a pure function on an association-list file system.
-/

namespace PhotoSanitizer

/-! ## The `datetime` value produced by a successful parse -/

/-- The fields of a Python `datetime` relevant to this program. -/
structure datetime where
  year : Nat
  month : Nat
  day : Nat
  hour : Nat
  minute : Nat
  second : Nat
  microsecond : Nat
deriving DecidableEq, Repr

/-- Gregorian leap-year rule, as used by Python's `datetime`. -/
def isLeapYear (y : Nat) : Bool :=
  (y % 4 == 0 && y % 100 != 0) || y % 400 == 0

/-- Number of days of a month, as validated by the `datetime` constructor. -/
def daysInMonth (y m : Nat) : Nat :=
  if m = 2 then (if isLeapYear y then 29 else 28)
  else if m = 4 ∨ m = 6 ∨ m = 9 ∨ m = 11 then 30
  else 31

/-- The validation performed by the `datetime(...)` constructor: out-of-range
fields raise `ValueError` (modelled as `none`); `try_parse_date` catches
that error. -/
def mkDatetime (y mo d h mi s f : Nat) : Option datetime :=
  if 1 ≤ y ∧ y ≤ 9999 ∧ 1 ≤ mo ∧ mo ≤ 12 ∧ 1 ≤ d ∧ d ≤ daysInMonth y mo
      ∧ h ≤ 23 ∧ mi ≤ 59 ∧ s ≤ 59 ∧ f ≤ 999999 then
    some ⟨y, mo, d, h, mi, s, f⟩
  else
    none

/-! ## `strptime`, for the directives this program uses

CPython's `_strptime` compiles the format string to a regular expression
(one alternation per directive, matched with backtracking, case-insensitive
literals) and then feeds the captured fields to the `datetime` constructor.
The directives below are exactly those appearing in the program's five
format strings; an unsupported directive makes `strptime` raise
`ValueError`, which `try_parse_date` catches, so it is modelled as a
failing parse. -/

/-- One compiled directive of a `strptime` format string. -/
inductive Directive where
  /-- `%Y`: exactly four digits. -/
  | year
  /-- `%m`: `1[0-2]|0[1-9]|[1-9]`. -/
  | month
  /-- `%d`: `3[01]|[12][0-9]|0[1-9]|[1-9]`. -/
  | day
  /-- `%H`: `2[0-3]|[0-1][0-9]|[0-9]`. -/
  | hour
  /-- `%M`: `[0-5][0-9]|[0-9]`. -/
  | minute
  /-- `%S`: `6[0-1]|[0-5][0-9]|[0-9]`. -/
  | second
  /-- `%f`: one to six digits, greedy, scaled to microseconds. -/
  | fraction
  /-- A literal character, matched case-insensitively. -/
  | lit (c : Char)
  /-- A whitespace run in the format: matches one or more whitespace. -/
  | space
deriving DecidableEq, Repr

/-- Captured `strptime` fields, initialised to Python's defaults
(year 1900, month 1, day 1, midnight). -/
structure TimeFields where
  y : Nat := 1900
  mo : Nat := 1
  d : Nat := 1
  h : Nat := 0
  mi : Nat := 0
  s : Nat := 0
  f : Nat := 0
deriving DecidableEq, Repr

/-- Numeric value of a decimal digit character. -/
def digitVal (c : Char) : Nat := c.toNat - 48

/-- ASCII whitespace, the characters `\s` matches on the program's inputs. -/
def isSpaceChar (c : Char) : Bool :=
  c = ' ' || c = '\t' || c = '\n' || c = '\r' || c = '\x0b' || c = '\x0c'

/-- Two-character alternative of a directive's regex: succeeds when `ok`
accepts the next two characters. -/
def alt2 (cs : List Char) (ok : Char → Char → Bool) (val : Char → Char → Nat) :
    List (Nat × List Char) :=
  match cs with
  | c1 :: c2 :: rest => if ok c1 c2 then [(val c1 c2, rest)] else []
  | _ => []

/-- One-character alternative of a directive's regex. -/
def alt1 (cs : List Char) (ok : Char → Bool) (val : Char → Nat) :
    List (Nat × List Char) :=
  match cs with
  | c :: rest => if ok c then [(val c, rest)] else []
  | _ => []

/-- Value of a captured `%f` digit string: right-padded with zeros to six
digits, i.e. scaled to microseconds. -/
def fractionVal (ds : List Char) : Nat :=
  (ds.foldl (fun a c => a * 10 + digitVal c) 0) * 10 ^ (6 - ds.length)

/-- The ways a directive can consume the head of the input, in the order
the compiled regex tries them (regex alternation order; greedy repetition
tries longer matches first). -/
def candidates (d : Directive) (cs : List Char) : List (Nat × List Char) :=
  match d with
  | .year =>
    match cs with
    | c1 :: c2 :: c3 :: c4 :: rest =>
      if c1.isDigit && c2.isDigit && c3.isDigit && c4.isDigit then
        [(digitVal c1 * 1000 + digitVal c2 * 100 + digitVal c3 * 10 + digitVal c4, rest)]
      else []
    | _ => []
  | .month =>
    alt2 cs (fun a b => a = '1' && ('0' ≤ b && b ≤ '2')) (fun _ b => 10 + digitVal b)
      ++ alt2 cs (fun a b => a = '0' && ('1' ≤ b && b ≤ '9')) (fun _ b => digitVal b)
      ++ alt1 cs (fun a => '1' ≤ a && a ≤ '9') digitVal
  | .day =>
    alt2 cs (fun a b => a = '3' && (b = '0' || b = '1')) (fun _ b => 30 + digitVal b)
      ++ alt2 cs (fun a b => (a = '1' || a = '2') && b.isDigit)
          (fun a b => 10 * digitVal a + digitVal b)
      ++ alt2 cs (fun a b => a = '0' && ('1' ≤ b && b ≤ '9')) (fun _ b => digitVal b)
      ++ alt1 cs (fun a => '1' ≤ a && a ≤ '9') digitVal
  | .hour =>
    alt2 cs (fun a b => a = '2' && ('0' ≤ b && b ≤ '3')) (fun _ b => 20 + digitVal b)
      ++ alt2 cs (fun a b => (a = '0' || a = '1') && b.isDigit)
          (fun a b => 10 * digitVal a + digitVal b)
      ++ alt1 cs Char.isDigit digitVal
  | .minute =>
    alt2 cs (fun a b => ('0' ≤ a && a ≤ '5') && b.isDigit)
        (fun a b => 10 * digitVal a + digitVal b)
      ++ alt1 cs Char.isDigit digitVal
  | .second =>
    alt2 cs (fun a b => a = '6' && (b = '0' || b = '1')) (fun _ b => 60 + digitVal b)
      ++ alt2 cs (fun a b => ('0' ≤ a && a ≤ '5') && b.isDigit)
          (fun a b => 10 * digitVal a + digitVal b)
      ++ alt1 cs Char.isDigit digitVal
  | .fraction =>
    let digs := (cs.takeWhile Char.isDigit).take 6
    (List.range digs.length).map
      (fun i =>
        let k := digs.length - i
        (fractionVal (digs.take k), cs.drop k))
  | .lit c =>
    alt1 cs (fun x => x.toLower = c.toLower) (fun _ => 0)
  | .space =>
    let w := (cs.takeWhile isSpaceChar).length
    (List.range w).map (fun i => (0, cs.drop (w - i)))

/-- Record a captured field. Literal and whitespace matches capture
nothing. -/
def setField (d : Directive) (v : Nat) (t : TimeFields) : TimeFields :=
  match d with
  | .year => {t with y := v}
  | .month => {t with mo := v}
  | .day => {t with d := v}
  | .hour => {t with h := v}
  | .minute => {t with mi := v}
  | .second => {t with s := v}
  | .fraction => {t with f := v}
  | .lit _ => t
  | .space => t

/-- Backtracking matcher for a compiled format, requiring the whole input
to be consumed (CPython raises `ValueError` on unconverted trailing data).
The fuel argument bounds the recursion depth; one unit is spent per
directive, so `ds.length + 1` always suffices. -/
def matchFmtAux : Nat → List Directive → List Char → TimeFields → Option TimeFields
  | 0, _, _, _ => none
  | _ + 1, [], cs, acc => if cs.isEmpty then some acc else none
  | fuel + 1, d :: ds, cs, acc =>
    (candidates d cs).findSome? (fun vr => matchFmtAux fuel ds vr.2 (setField d vr.1 acc))

/-- Match a compiled format against an input string. -/
def matchFmt (ds : List Directive) (cs : List Char) : Option TimeFields :=
  matchFmtAux (ds.length + 1) ds cs {}

/-- The directive named by `%c` in a format string, for the directives this
program uses. -/
def directiveFor (c : Char) : Option Directive :=
  if c = 'Y' then some .year
  else if c = 'm' then some .month
  else if c = 'd' then some .day
  else if c = 'H' then some .hour
  else if c = 'M' then some .minute
  else if c = 'S' then some .second
  else if c = 'f' then some .fraction
  else if c = '%' then some (.lit '%')
  else none

/-- Compile a format string to directives. A whitespace run in the format
becomes a single `Directive.space` (CPython substitutes a whitespace run
with one occurrence of one-or-more-whitespace). An unsupported directive or
a trailing `%` yields `none` (`strptime` raises `ValueError` there, which
`try_parse_date` turns into a failed parse). Fuel bounds the depth: one
unit per consumed character. -/
def compileFormatAux : Nat → List Char → Option (List Directive)
  | 0, _ => none
  | _ + 1, [] => some []
  | fuel + 1, '%' :: rest =>
    match rest with
    | [] => none
    | c :: rest2 =>
      match directiveFor c with
      | some d => (compileFormatAux fuel rest2).map (fun ds => d :: ds)
      | none => none
  | fuel + 1, c :: rest =>
    if isSpaceChar c then
      (compileFormatAux fuel (rest.dropWhile isSpaceChar)).map (fun ds => Directive.space :: ds)
    else
      (compileFormatAux fuel rest).map (fun ds => Directive.lit c :: ds)

/-- Compile a format string. -/
def compileFormat (fmt : String) : Option (List Directive) :=
  compileFormatAux (fmt.toList.length + 1) fmt.toList

/-! ## The source's `MetadataProcessor.try_parse_date` -/

/-- `MetadataProcessor.try_parse_date` (lines 86–92): wrap
`datetime.strptime(date_str, date_format)`, turning a `ValueError` (parse
failure, bad format directive, or constructor range check) into `None`. -/
def try_parse_date (date_str : String) (date_format : String) : Option datetime :=
  match compileFormat date_format with
  | none => none
  | some ds =>
    match matchFmt ds date_str.toList with
    | none => none
    | some t => mkDatetime t.y t.mo t.d t.h t.mi t.s t.f

/-! ## Data model: `ProcessingResult` and the extractor's collaborators -/

/-- The `ProcessingResult` enumeration (lines 58–64). -/
inductive ProcessingResult where
  | VALID_CREATION_TIMESTAMP
  | FAILED_TO_READ
  | NO_METADATA
  | INVALID_TIMESTAMP_FORMAT
deriving DecidableEq, Repr

/-- Python's `Enum.name` attribute, used to annotate failed files. -/
def ProcessingResult.name : ProcessingResult → String
  | .VALID_CREATION_TIMESTAMP => "VALID_CREATION_TIMESTAMP"
  | .FAILED_TO_READ => "FAILED_TO_READ"
  | .NO_METADATA => "NO_METADATA"
  | .INVALID_TIMESTAMP_FORMAT => "INVALID_TIMESTAMP_FORMAT"

/-- Module-level extension tuple `image_files_with_EXIF_metadata` (line 53). -/
def image_files_with_EXIF_metadata : List String :=
  [".jpg", ".jpeg", ".png", ".tiff", ".heic", ".gif"]

/-- Module-level extension tuple `video_files_for_ffmpeg` (line 54). -/
def video_files_for_ffmpeg : List String :=
  [".mp4", ".mov", ".avi", ".mkv", ".wmv", ".flv"]

/-- Module-level constant `ignore_files` (line 55) — a single string, not a
tuple, in the source. -/
def ignore_files : String := ".cr2"

/-- Python's `str.lower`, character by character (the extensions and paths
involved are ASCII, where Python's and Lean's per-character lowering
agree). -/
def pyLower (s : String) : String := ⟨s.data.map Char.toLower⟩

/-- Python's `str.endswith` with a single string argument. -/
def pyEndsWith (s suffix : String) : Bool := List.isSuffixOf suffix.data s.data

/-- Python's `str.endswith` applied to a tuple of suffixes. -/
def endsWithAny (s : String) (suffixes : List String) : Bool :=
  suffixes.any (fun suffix => pyEndsWith s suffix)

/-- What `Image.open(file_path)` followed by `img._getexif()` yields for a
given file: either some exception (corrupted file, I/O error, …), or an
EXIF dictionary, where `none` models `_getexif()` returning `None`. The
dictionary maps numeric tag ids to string values. -/
inductive ImageOpenOutcome where
  | raises
  | exif (data : Option (List (Nat × String)))
deriving DecidableEq, Repr

/-- Python truthiness of the `exif_data` value: `None` and the empty
dictionary are falsy (`if not exif_data`, line 109). -/
def exifFalsy : Option (List (Nat × String)) → Bool
  | none => true
  | some l => l.isEmpty

/-- The optional `"tags"` block of `probe["format"]`. -/
structure FormatDict where
  tags : Option (List (String × String)) := none
deriving DecidableEq, Repr

/-- The `ffmpeg.probe` result: an optional `"format"` block. -/
structure ProbeDict where
  format : Option FormatDict := none
deriving DecidableEq, Repr

/-- What `ffmpeg.probe(file_path)` yields for a given file: either an
`ffmpeg.Error` (or any other exception), or a structured description. -/
inductive ProbeOutcome where
  | raises
  | returns (probe : ProbeDict)
deriving DecidableEq, Repr

/-- The behaviour of the external decode/probe capabilities on one file:
everything `get_creation_date` can observe about the file's content. -/
structure FileWorld where
  imageOpen : ImageOpenOutcome := .raises
  probe : ProbeOutcome := .raises
deriving DecidableEq, Repr

/-- `MetadataProcessor.__init__` state: the three resolved EXIF tag ids
(the `exit_` typo is the source's) and the verbosity level. `verbose`
only gates `print` calls and never influences any return value. -/
structure MetadataProcessor where
  exif_DateTimeOriginal_tag : Nat := 0
  exit_DateTimeDigitized_tag : Nat := 0
  exif_DateTime_tag : Nat := 0
  verbose : Nat := 0
deriving DecidableEq, Repr

/-- `MetadataProcessor.__init__` (lines 67–84): resolve the three tag names
against PIL's `ExifTags.TAGS` table. In Pillow, `DateTimeOriginal = 36867`,
`DateTimeDigitized = 36868`, `DateTime = 306`. -/
def MetadataProcessor.init (verbose : Nat := 0) : MetadataProcessor :=
  { exif_DateTimeOriginal_tag := 36867
    exit_DateTimeDigitized_tag := 36868
    exif_DateTime_tag := 306
    verbose := verbose }

/-! ## The Metadata Extractor: `get_creation_date` -/

/-- The image branch's field-priority loop (lines 117–123): the first key of
the list present in the EXIF dictionary provides the candidate string. -/
def firstTagValue (keys : List Nat) (data : List (Nat × String)) : Option String :=
  keys.findSome? (fun k => data.lookup k)

/-- The format-trial loop of `get_creation_date` (lines 161–165): try each
format in order, return the first successful parse. -/
def firstParse (date_str : String) (date_formats : List String) : Option datetime :=
  date_formats.findSome? (fun date_format => try_parse_date date_str date_format)

/-- The tail of `get_creation_date` (lines 160–170): parse the non-empty
candidate string against the collected format list. -/
def parse_candidate (date_str : String) (date_formats : List String) :
    ProcessingResult × Option datetime :=
  match firstParse date_str date_formats with
  | some date_parsed => (.VALID_CREATION_TIMESTAMP, some date_parsed)
  | none => (.INVALID_TIMESTAMP_FORMAT, none)

/-- The single format tried for image candidates (line 122). -/
def image_date_formats : List String := ["%Y:%m:%d %H:%M:%S"]

/-- The four formats tried for video candidates, in order (lines 139–142). -/
def video_date_formats : List String :=
  ["%Y-%m-%dT%H:%M:%S.%fZ", "%Y-%m-%d %H:%M:%S.%fZ",
   "%Y-%m-%d %H:%M:%S", "%Y:%m:%d %H:%M:%S"]

/-- `MetadataProcessor.get_creation_date` (lines 94–170). The `try`/`except`
of the source catches every exception from the decode/probe capabilities
(modelled by the `raises` outcomes) and maps it to `FAILED_TO_READ`; all
other paths return normally, so the embedding is a total function. -/
def MetadataProcessor.get_creation_date (self : MetadataProcessor)
    (w : FileWorld) (file_path : String) : ProcessingResult × Option datetime :=
  if endsWithAny (pyLower file_path) image_files_with_EXIF_metadata then
    match w.imageOpen with
    | .raises => (.FAILED_TO_READ, none)
    | .exif exif_data =>
      if exifFalsy exif_data then (.NO_METADATA, none)
      else
        let data := exif_data.getD []
        let date_str :=
          (firstTagValue [self.exif_DateTimeOriginal_tag,
            self.exit_DateTimeDigitized_tag, self.exif_DateTime_tag] data).getD ""
        if date_str = "" then (.NO_METADATA, none)
        else parse_candidate date_str image_date_formats
  else if endsWithAny (pyLower file_path) video_files_for_ffmpeg then
    match w.probe with
    | .raises => (.FAILED_TO_READ, none)
    | .returns probe =>
      match probe.format with
      | none => (.NO_METADATA, none)
      | some fmt =>
        match fmt.tags with
        | none => (.NO_METADATA, none)
        | some tags =>
          match tags.lookup "creation_time" with
          | none => (.NO_METADATA, none)
          | some date_str => parse_candidate date_str video_date_formats
  else
    (.FAILED_TO_READ, none)

/-! ## The Directory Classifier -/

/-- The three buckets accumulated by `process_directory` (lines 174–176). -/
structure YearDirectoryReport where
  matching_files : List String := []
  non_matching_files : List String := []
  failed_to_read_files : List String := []
deriving DecidableEq, Repr

/-- One enumerated file of the directory walk: its joined path together
with what the external decode/probe capabilities report for it. -/
structure FileEntry where
  path : String
  world : FileWorld
deriving DecidableEq, Repr

/-- Reading `.year` from the extractor's optional timestamp, as the
classifier does (`creation_date.year`, lines 188/190). On `None`, Python
would raise `AttributeError`; that case is unreachable because
`get_creation_date` returns a timestamp exactly when the result is
`VALID_CREATION_TIMESTAMP` (see `get_creation_date_isSome_iff`), so the
default value below is never observable. -/
def year_of_creation_date : Option datetime → Nat
  | some d => d.year
  | none => 0

/-- The loop body of `process_directory`'s walk (lines 179–196): skip files
with the ignored extension, otherwise classify the extractor's outcome
into one of the three buckets, annotating failed files with the result
name. -/
def classify_file (self : MetadataProcessor) (year : Nat)
    (r : YearDirectoryReport) (e : FileEntry) : YearDirectoryReport :=
  if pyEndsWith (pyLower e.path) ignore_files then r
  else
    let out := self.get_creation_date e.world e.path
    let processing_result := out.1
    let creation_date := out.2
    if processing_result = .VALID_CREATION_TIMESTAMP
        ∧ year_of_creation_date creation_date = year then
      {r with matching_files := r.matching_files ++ [e.path]}
    else if processing_result = .VALID_CREATION_TIMESTAMP
        ∧ year_of_creation_date creation_date ≠ year then
      {r with non_matching_files := r.non_matching_files ++ [e.path]}
    else if processing_result = .NO_METADATA then
      {r with non_matching_files := r.non_matching_files ++ [e.path]}
    else
      {r with failed_to_read_files := r.failed_to_read_files
        ++ [e.path ++ " (error code: " ++ processing_result.name ++ ")"]}

/-- The walk of `process_directory` (lines 173–196): fold the classifier
over the enumerated files, starting from empty buckets. The file list
stands for the (stable) enumeration produced by `os.walk`. -/
def classify_directory (self : MetadataProcessor) (files : List FileEntry)
    (year : Nat) : YearDirectoryReport :=
  files.foldl (classify_file self year) {}

/-! ## The Report Writer

The working directory is modelled as an association list from file name to
file contents; `open(name, "w")` replaces any previous binding, and
`os.remove` drops it. -/

/-- A file system: file name to contents. -/
def FS : Type := List (String × String)

/-- Contents of a file, when present. -/
def fsLookup (fs : FS) (name : String) : Option String :=
  (List.find? (fun e => e.1 == name) fs).map (fun e => e.2)

/-- `open(name, "w")` followed by writing `content`: replace any previous
binding of `name`. -/
def fsWrite (fs : FS) (name content : String) : FS :=
  (name, content) :: List.filter (fun e => e.1 != name) fs

/-- Net effect of `if os.path.exists(name): os.remove(name)`. -/
def fsDelete (fs : FS) (name : String) : FS :=
  List.filter (fun e => e.1 != name) fs

/-- The contents written by the `f.write(f"{file}\n")` loop: one entry per
line, in bucket order. -/
def joinLines (lines : List String) : String :=
  String.join (lines.map (fun line => line ++ "\n"))

/-- Output file `f"{year}_non_matching_files.txt"` (line 201). -/
def non_matching_output_file (year : Nat) : String :=
  toString year ++ "_non_matching_files.txt"

/-- Output file `f"{year}_failed_to_read_files.txt"` (line 215). -/
def failed_output_file (year : Nat) : String :=
  toString year ++ "_failed_to_read_files.txt"

/-- One arm of the Report Writer (lines 202–213 and 216–227): when the
bucket is non-empty, overwrite the output file with one entry per line;
otherwise remove any pre-existing file of that name. -/
def write_report_file (fs : FS) (output_file : String) (bucket : List String) : FS :=
  if bucket.length > 0 then fsWrite fs output_file (joinLines bucket)
  else fsDelete fs output_file

/-- `MetadataProcessor.process_directory` (lines 173–227) as a function on
the modelled file system: classify every enumerated file, then write or
delete the two per-year report files. -/
def MetadataProcessor.process_directory (self : MetadataProcessor)
    (files : List FileEntry) (year : Nat) (fs : FS) : FS :=
  let r := classify_directory self files year
  let fs1 := write_report_file fs (non_matching_output_file year) r.non_matching_files
  write_report_file fs1 (failed_output_file year) r.failed_to_read_files

/-! ## Helper lemmas -/

/-- The parse tail returns a timestamp exactly when it reports
`VALID_CREATION_TIMESTAMP`. -/
theorem parse_candidate_isSome_iff (date_str : String) (date_formats : List String) :
    ((parse_candidate date_str date_formats).2.isSome = true)
      ↔ (parse_candidate date_str date_formats).1 = ProcessingResult.VALID_CREATION_TIMESTAMP := by
  unfold parse_candidate
  cases h : firstParse date_str date_formats <;> simp

/-- Every return of `get_creation_date` is an early error return or the
parse tail. -/
theorem get_creation_date_shape (self : MetadataProcessor) (w : FileWorld) (file_path : String) :
    (∃ s fmts, self.get_creation_date w file_path = parse_candidate s fmts)
    ∨ self.get_creation_date w file_path = (.FAILED_TO_READ, none)
    ∨ self.get_creation_date w file_path = (.NO_METADATA, none) := by
  rcases w with ⟨io, pr⟩
  unfold MetadataProcessor.get_creation_date
  split
  · rcases io with _ | data
    · simp
    · simp only
      split
      · simp
      · split
        · simp
        · exact Or.inl ⟨_, _, rfl⟩
  · split
    · rcases pr with _ | ⟨⟨_ | ⟨_ | tags⟩⟩⟩
      · simp
      · simp
      · simp
      · simp only
        cases h : List.lookup "creation_time" tags with
        | none => simp [h]
        | some ds => exact Or.inl ⟨_, _, rfl⟩
    · simp

/-- The extractor returns a timestamp exactly when it reports
`VALID_CREATION_TIMESTAMP`. -/
theorem get_creation_date_isSome_iff (self : MetadataProcessor) (w : FileWorld) (file_path : String) :
    ((self.get_creation_date w file_path).2.isSome = true)
      ↔ (self.get_creation_date w file_path).1 = ProcessingResult.VALID_CREATION_TIMESTAMP := by
  rcases get_creation_date_shape self w file_path with ⟨s, fmts, h⟩ | h | h <;> rw [h]
  · exact parse_candidate_isSome_iff s fmts
  · simp
  · simp

/-- Filtering out key `n` does not change a lookup for a different key. -/
theorem find?_key_filter_ne (fs : List (String × String)) (n m : String) (hne : m ≠ n) :
    List.find? (fun e => e.1 == m) (List.filter (fun e => e.1 != n) fs)
      = List.find? (fun e => e.1 == m) fs := by
  induction fs with
  | nil => rfl
  | cons e fs ih =>
    by_cases h1 : e.1 = n
    · rw [List.filter_cons_of_neg (by simp [h1]), ih,
        List.find?_cons_of_neg _ (by simp [h1, Ne.symm hne])]
    · rw [List.filter_cons_of_pos (by simp [h1])]
      by_cases h2 : e.1 = m
      · rw [List.find?_cons_of_pos _ (by simp [h2]), List.find?_cons_of_pos _ (by simp [h2])]
      · rw [List.find?_cons_of_neg _ (by simp [h2]), List.find?_cons_of_neg _ (by simp [h2]), ih]

/-- After filtering out key `n`, a lookup for `n` fails. -/
theorem find?_key_filter_self (fs : List (String × String)) (n : String) :
    List.find? (fun e => e.1 == n) (List.filter (fun e => e.1 != n) fs) = none := by
  induction fs with
  | nil => rfl
  | cons e fs ih =>
    by_cases h1 : e.1 = n
    · rw [List.filter_cons_of_neg (by simp [h1]), ih]
    · rw [List.filter_cons_of_pos (by simp [h1]), List.find?_cons_of_neg _ (by simp [h1]), ih]

/-- Reading the file system after a write. -/
theorem fsLookup_fsWrite (fs : FS) (n c m : String) :
    fsLookup (fsWrite fs n c) m = if m = n then some c else fsLookup fs m := by
  unfold fsLookup fsWrite
  rcases eq_or_ne m n with rfl | hne
  · rw [List.find?_cons_of_pos _ (by simp), if_pos rfl]
    rfl
  · rw [List.find?_cons_of_neg _ (by simp [Ne.symm hne]), find?_key_filter_ne fs n m hne,
      if_neg hne]

/-- Reading the file system after a delete. -/
theorem fsLookup_fsDelete (fs : FS) (n m : String) :
    fsLookup (fsDelete fs n) m = if m = n then none else fsLookup fs m := by
  unfold fsLookup fsDelete
  rcases eq_or_ne m n with rfl | hne
  · rw [find?_key_filter_self fs m, if_pos rfl]
    rfl
  · rw [find?_key_filter_ne fs n m hne, if_neg hne]

/-- The two per-year report files have different names. -/
theorem output_files_ne (year : Nat) :
    non_matching_output_file year ≠ failed_output_file year := by
  intro h
  have h2 := congrArg String.length h
  rw [non_matching_output_file, failed_output_file, String.length_append,
    String.length_append] at h2
  have e1 : ("_non_matching_files.txt" : String).length = 23 := rfl
  have e2 : ("_failed_to_read_files.txt" : String).length = 25 := rfl
  rw [e1, e2] at h2
  omega

/-- Contents of the file system after `process_directory`: the two report
files reflect their buckets, everything else is untouched. -/
theorem process_directory_fsLookup (self : MetadataProcessor) (files : List FileEntry)
    (year : Nat) (fs : FS) (n : String) :
    fsLookup (self.process_directory files year fs) n =
      (if n = failed_output_file year then
        (if 0 < (classify_directory self files year).failed_to_read_files.length
         then some (joinLines (classify_directory self files year).failed_to_read_files)
         else none)
      else if n = non_matching_output_file year then
        (if 0 < (classify_directory self files year).non_matching_files.length
         then some (joinLines (classify_directory self files year).non_matching_files)
         else none)
      else fsLookup fs n) := by
  unfold MetadataProcessor.process_directory write_report_file
  by_cases hf : 0 < (classify_directory self files year).failed_to_read_files.length <;>
    by_cases hn : 0 < (classify_directory self files year).non_matching_files.length <;>
      simp only [hf, hn, if_pos, if_neg, if_true, if_false, fsLookup_fsWrite, fsLookup_fsDelete]

/-! ## Claim theorems -/

/-- C8: for every file path, in every external-capability environment, the
Metadata Extractor produces exactly one `(ProcessingResult, Option datetime)`
outcome (`get_creation_date` is a total function), and the timestamp
component is present if and only if the result component is
`VALID_CREATION_TIMESTAMP`; every return with one of the three error
results carries no timestamp. -/
theorem extraction_outcome_invariant (self : MetadataProcessor) (w : FileWorld)
    (file_path : String) :
    (((self.get_creation_date w file_path).2.isSome = true)
      ↔ (self.get_creation_date w file_path).1 = ProcessingResult.VALID_CREATION_TIMESTAMP)
    ∧ ((self.get_creation_date w file_path).1 ≠ ProcessingResult.VALID_CREATION_TIMESTAMP
      → (self.get_creation_date w file_path).2 = none) := by
  refine ⟨get_creation_date_isSome_iff self w file_path, fun h => ?_⟩
  have h2 := (get_creation_date_isSome_iff self w file_path).not.mpr h
  simpa [Option.not_isSome_iff_eq_none] using h2

/-- Witness for C8 at a concrete input: an unsupported extension yields a
non-valid result, hence no timestamp. -/
theorem extraction_outcome_invariant_witness :
    (MetadataProcessor.init.get_creation_date {} "archive.bmp").2 = none :=
  (extraction_outcome_invariant MetadataProcessor.init {} "archive.bmp").2 (by decide)

/-- C2: the Metadata Extractor always returns a definitive outcome, one of
the four `ProcessingResult` values (the embedding is a total function: the
source's `try`/`except` catches every exception, so none escapes), and any
exception raised by the image-decode or container-probe capability (the
`raises` outcomes) is mapped to `FAILED_TO_READ`. -/
theorem extractor_error_boundary (self : MetadataProcessor) (w : FileWorld)
    (file_path : String) :
    ((self.get_creation_date w file_path).1 = ProcessingResult.VALID_CREATION_TIMESTAMP
      ∨ (self.get_creation_date w file_path).1 = ProcessingResult.FAILED_TO_READ
      ∨ (self.get_creation_date w file_path).1 = ProcessingResult.NO_METADATA
      ∨ (self.get_creation_date w file_path).1 = ProcessingResult.INVALID_TIMESTAMP_FORMAT)
    ∧ (endsWithAny (pyLower file_path) image_files_with_EXIF_metadata = true
        → w.imageOpen = .raises
        → self.get_creation_date w file_path = (.FAILED_TO_READ, none))
    ∧ (endsWithAny (pyLower file_path) image_files_with_EXIF_metadata = false
        → endsWithAny (pyLower file_path) video_files_for_ffmpeg = true
        → w.probe = .raises
        → self.get_creation_date w file_path = (.FAILED_TO_READ, none)) := by
  refine ⟨?_, fun h1 h2 => ?_, fun h1 h2 h3 => ?_⟩
  · cases h : (self.get_creation_date w file_path).1 <;> simp
  · unfold MetadataProcessor.get_creation_date
    simp [h1, h2]
  · unfold MetadataProcessor.get_creation_date
    simp [h1, h2, h3]

/-- Witness for C2 at a concrete input: a decode exception on a `.JPG` file
becomes `FAILED_TO_READ`, and a probe exception on a `.mov` file too. -/
theorem extractor_error_boundary_witness :
    MetadataProcessor.init.get_creation_date
      {imageOpen := .raises, probe := .raises} "photo.JPG" = (.FAILED_TO_READ, none)
    ∧ MetadataProcessor.init.get_creation_date
      {imageOpen := .raises, probe := .raises} "clip.mov" = (.FAILED_TO_READ, none) :=
  ⟨(extractor_error_boundary MetadataProcessor.init
      {imageOpen := .raises, probe := .raises} "photo.JPG").2.1 (by decide) rfl,
   (extractor_error_boundary MetadataProcessor.init
      {imageOpen := .raises, probe := .raises} "clip.mov").2.2 (by decide) (by decide) rfl⟩

/-- C1: for every file processed by the Directory Classifier (path not
ending in the ignored extension), the bucket is determined solely by the
extractor's outcome and the target year: a valid timestamp of the target
year goes to `matching_files`; a valid timestamp of another year and
`NO_METADATA` go to `non_matching_files`; `FAILED_TO_READ` and
`INVALID_TIMESTAMP_FORMAT` go to `failed_to_read_files`, annotated with the
result name. -/
theorem classifier_bucket_rules (self : MetadataProcessor) (year : Nat)
    (r : YearDirectoryReport) (e : FileEntry)
    (hig : pyEndsWith (pyLower e.path) ignore_files = false) :
    (∀ d : datetime,
      self.get_creation_date e.world e.path = (.VALID_CREATION_TIMESTAMP, some d) →
      (d.year = year →
        classify_file self year r e = {r with matching_files := r.matching_files ++ [e.path]})
      ∧ (d.year ≠ year →
        classify_file self year r e
          = {r with non_matching_files := r.non_matching_files ++ [e.path]}))
    ∧ (self.get_creation_date e.world e.path = (.NO_METADATA, none) →
        classify_file self year r e
          = {r with non_matching_files := r.non_matching_files ++ [e.path]})
    ∧ (∀ res : ProcessingResult,
        res = .FAILED_TO_READ ∨ res = .INVALID_TIMESTAMP_FORMAT →
        self.get_creation_date e.world e.path = (res, none) →
        classify_file self year r e = {r with failed_to_read_files := r.failed_to_read_files
          ++ [e.path ++ " (error code: " ++ res.name ++ ")"]}) := by
  refine ⟨fun d hd => ⟨fun hy => ?_, fun hy => ?_⟩, fun h => ?_, fun res hres h => ?_⟩
  · unfold classify_file
    simp [hig, hd, year_of_creation_date, hy]
  · unfold classify_file
    simp [hig, hd, year_of_creation_date, hy]
  · unfold classify_file
    simp [hig, h, year_of_creation_date]
  · unfold classify_file
    rcases hres with rfl | rfl <;> simp [hig, h, year_of_creation_date]

/-- Witness for C1 at concrete inputs: a 2019 photo in a 2020 directory is
bucketed non-matching. -/
theorem classifier_bucket_rules_witness :
    classify_file MetadataProcessor.init 2020 {}
      ⟨"img1.jpg", {imageOpen := .exif (some [(36867, "2019:07:04 10:15:00")])}⟩
      = {non_matching_files := ["img1.jpg"]} :=
  ((classifier_bucket_rules MetadataProcessor.init 2020 {}
      ⟨"img1.jpg", {imageOpen := .exif (some [(36867, "2019:07:04 10:15:00")])}⟩
      (by decide)).1
    ⟨2019, 7, 4, 10, 15, 0, 0⟩ (by decide)).2 (by decide)

/-- C4: for every image-kind file whose metadata is readable and non-empty,
the candidate string is the value of the first present field among
`DateTimeOriginal`, `DateTimeDigitized`, `DateTime`, in that priority order
(later fields are discarded); the only format tried for it is
`%Y:%m:%d %H:%M:%S`; and if none of the three fields is present the outcome
is `NO_METADATA`. -/
theorem image_field_priority (self : MetadataProcessor) (w : FileWorld)
    (file_path : String) (data : List (Nat × String))
    (himg : endsWithAny (pyLower file_path) image_files_with_EXIF_metadata = true)
    (hopen : w.imageOpen = .exif (some data))
    (hne : data.isEmpty = false) :
    (firstTagValue [self.exif_DateTimeOriginal_tag, self.exit_DateTimeDigitized_tag,
        self.exif_DateTime_tag] data
      = ((data.lookup self.exif_DateTimeOriginal_tag).or
          ((data.lookup self.exit_DateTimeDigitized_tag).or
            (data.lookup self.exif_DateTime_tag))))
    ∧ (firstTagValue [self.exif_DateTimeOriginal_tag, self.exit_DateTimeDigitized_tag,
        self.exif_DateTime_tag] data = none
        → self.get_creation_date w file_path = (.NO_METADATA, none))
    ∧ (∀ v, firstTagValue [self.exif_DateTimeOriginal_tag, self.exit_DateTimeDigitized_tag,
        self.exif_DateTime_tag] data = some v → v ≠ "" →
        self.get_creation_date w file_path = parse_candidate v image_date_formats)
    ∧ image_date_formats = ["%Y:%m:%d %H:%M:%S"] := by
  refine ⟨?_, fun hnone => ?_, fun v hv hvne => ?_, rfl⟩
  · cases h1 : data.lookup self.exif_DateTimeOriginal_tag <;>
      cases h2 : data.lookup self.exit_DateTimeDigitized_tag <;>
        cases h3 : data.lookup self.exif_DateTime_tag <;>
          simp [firstTagValue, List.findSome?_cons, h1, h2, h3]
  · unfold MetadataProcessor.get_creation_date
    simp [himg, hopen, exifFalsy, hne, hnone]
  · unfold MetadataProcessor.get_creation_date
    simp [himg, hopen, exifFalsy, hne, hv, hvne]

/-- Witness for C4 at a concrete input: `DateTimeOriginal` is absent, so the
`DateTimeDigitized` value wins over the also-present `DateTime` value. -/
theorem image_field_priority_witness :
    MetadataProcessor.init.get_creation_date
      {imageOpen := .exif (some [(306, "2001:01:01 00:00:00"), (36868, "2002:02:02 02:02:02")])}
      "a.png"
      = parse_candidate "2002:02:02 02:02:02" image_date_formats :=
  (image_field_priority MetadataProcessor.init
      {imageOpen := .exif (some [(306, "2001:01:01 00:00:00"), (36868, "2002:02:02 02:02:02")])}
      "a.png" [(306, "2001:01:01 00:00:00"), (36868, "2002:02:02 02:02:02")]
      (by decide) rfl (by decide)).2.2.1
    "2002:02:02 02:02:02" (by decide) (by decide)

/-- C5: for every video-kind file whose container is probeable, an absent
format-level tag block or absent `creation_time` tag yields `NO_METADATA`;
otherwise the `creation_time` string is parsed against exactly the four
formats `%Y-%m-%dT%H:%M:%S.%fZ`, `%Y-%m-%d %H:%M:%S.%fZ`,
`%Y-%m-%d %H:%M:%S`, `%Y:%m:%d %H:%M:%S`, tried in that order. -/
theorem video_probe_rules (self : MetadataProcessor) (w : FileWorld) (file_path : String)
    (probe : ProbeDict)
    (himg : endsWithAny (pyLower file_path) image_files_with_EXIF_metadata = false)
    (hvid : endsWithAny (pyLower file_path) video_files_for_ffmpeg = true)
    (hpr : w.probe = .returns probe) :
    (probe.format = none → self.get_creation_date w file_path = (.NO_METADATA, none))
    ∧ (∀ fmt, probe.format = some fmt → fmt.tags = none →
        self.get_creation_date w file_path = (.NO_METADATA, none))
    ∧ (∀ fmt tags, probe.format = some fmt → fmt.tags = some tags →
        tags.lookup "creation_time" = none →
        self.get_creation_date w file_path = (.NO_METADATA, none))
    ∧ (∀ fmt tags date_str, probe.format = some fmt → fmt.tags = some tags →
        tags.lookup "creation_time" = some date_str →
        self.get_creation_date w file_path = parse_candidate date_str video_date_formats)
    ∧ video_date_formats
        = ["%Y-%m-%dT%H:%M:%S.%fZ", "%Y-%m-%d %H:%M:%S.%fZ",
           "%Y-%m-%d %H:%M:%S", "%Y:%m:%d %H:%M:%S"] := by
  refine ⟨fun h1 => ?_, fun fmt h1 h2 => ?_, fun fmt tags h1 h2 h3 => ?_,
    fun fmt tags ds h1 h2 h3 => ?_, rfl⟩
  · unfold MetadataProcessor.get_creation_date
    simp [himg, hvid, hpr, h1]
  · unfold MetadataProcessor.get_creation_date
    simp [himg, hvid, hpr, h1, h2]
  · unfold MetadataProcessor.get_creation_date
    simp [himg, hvid, hpr, h1, h2, h3]
  · unfold MetadataProcessor.get_creation_date
    simp [himg, hvid, hpr, h1, h2, h3]

/-- Witness for C5 at a concrete input: a `creation_time` tag on a `.mov`
file is parsed against the four video formats. -/
theorem video_probe_rules_witness :
    MetadataProcessor.init.get_creation_date
      {probe := .returns ⟨some ⟨some [("creation_time", "2021-03-01T00:00:00.000000Z")]⟩⟩}
      "clip.mov"
      = parse_candidate "2021-03-01T00:00:00.000000Z" video_date_formats :=
  (video_probe_rules MetadataProcessor.init
      {probe := .returns ⟨some ⟨some [("creation_time", "2021-03-01T00:00:00.000000Z")]⟩⟩}
      "clip.mov" ⟨some ⟨some [("creation_time", "2021-03-01T00:00:00.000000Z")]⟩⟩
      (by decide) (by decide) rfl).2.2.2.1
    ⟨some [("creation_time", "2021-03-01T00:00:00.000000Z")]⟩
    [("creation_time", "2021-03-01T00:00:00.000000Z")]
    "2021-03-01T00:00:00.000000Z" rfl rfl (by decide)

/-- C10 (implicit): for every image-kind file whose highest-priority present
EXIF date field holds the empty string, the extractor returns
`(NO_METADATA, none)` rather than `(INVALID_TIMESTAMP_FORMAT, none)` — the
empty-candidate check runs before any format is tried, so an empty tag
value is indistinguishable at the public interface from an absent tag. -/
theorem image_empty_tag_value (self : MetadataProcessor) (w : FileWorld)
    (file_path : String) (data : List (Nat × String))
    (himg : endsWithAny (pyLower file_path) image_files_with_EXIF_metadata = true)
    (hopen : w.imageOpen = .exif (some data))
    (hne : data.isEmpty = false)
    (hfirst : firstTagValue [self.exif_DateTimeOriginal_tag, self.exit_DateTimeDigitized_tag,
      self.exif_DateTime_tag] data = some "") :
    self.get_creation_date w file_path = (.NO_METADATA, none) := by
  unfold MetadataProcessor.get_creation_date
  simp [himg, hopen, exifFalsy, hne, hfirst]

/-- Witness for C10 at a concrete input: an empty `DateTimeOriginal` value
yields `NO_METADATA`. -/
theorem image_empty_tag_value_witness :
    MetadataProcessor.init.get_creation_date
      {imageOpen := .exif (some [(36867, "")])} "img.gif" = (.NO_METADATA, none) :=
  image_empty_tag_value MetadataProcessor.init
    {imageOpen := .exif (some [(36867, "")])} "img.gif" [(36867, "")]
    (by decide) rfl (by decide) (by decide)

/-- The empty candidate string fails every format string the program uses:
each of them starts with `%Y`, which requires four digits. -/
theorem try_parse_date_empty (f : String)
    (hf : f ∈ image_date_formats ++ video_date_formats) :
    try_parse_date "" f = none := by
  fin_cases hf <;> rfl

/-- C3: for every candidate string and every list of format specifications
drawn from the program's formats, the Timestamp Parser returns `none`
exactly when every format fails or the candidate is empty, and whenever the
formats before `f` all fail and `f` succeeds, the result is the parse
produced by `f` (first-match-wins, regardless of later formats). -/
theorem timestamp_parser_first_match (date_str : String) (fmts : List String)
    (hfmts : ∀ f ∈ fmts, f ∈ image_date_formats ++ video_date_formats) :
    (firstParse date_str fmts = none ↔
      ((∀ f ∈ fmts, try_parse_date date_str f = none) ∨ date_str = ""))
    ∧ (∀ pre f post, fmts = pre ++ f :: post →
        (∀ g ∈ pre, try_parse_date date_str g = none) →
        ∀ d, try_parse_date date_str f = some d →
        firstParse date_str fmts = some d) := by
  constructor
  · constructor
    · intro h
      exact Or.inl (by simpa [firstParse] using h)
    · rintro (h | rfl)
      · simp only [firstParse, List.findSome?_eq_none_iff]
        exact h
      · simp only [firstParse, List.findSome?_eq_none_iff]
        intro f hf2
        exact try_parse_date_empty f (hfmts f hf2)
  · rintro pre f post rfl hpre d hd
    unfold firstParse
    rw [List.findSome?_append, List.findSome?_eq_none_iff.mpr hpre, Option.none_or,
      List.findSome?_cons_of_isSome _ (by simp [hd])]
    exact hd

/-- Witness for C3 at a concrete input: a candidate matching only format #3
of the 4-format video list yields the value produced by format #3. -/
theorem timestamp_parser_first_match_witness :
    firstParse "2021-03-01 00:00:00" video_date_formats
      = some ⟨2021, 3, 1, 0, 0, 0, 0⟩
    ∧ try_parse_date "2021-03-01 00:00:00" "%Y-%m-%d %H:%M:%S"
      = some ⟨2021, 3, 1, 0, 0, 0, 0⟩ :=
  ⟨(timestamp_parser_first_match "2021-03-01 00:00:00" video_date_formats (by decide)).2
      ["%Y-%m-%dT%H:%M:%S.%fZ", "%Y-%m-%d %H:%M:%S.%fZ"] "%Y-%m-%d %H:%M:%S"
      ["%Y:%m:%d %H:%M:%S"] rfl (by decide) ⟨2021, 3, 1, 0, 0, 0, 0⟩ (by decide),
   by decide⟩

/-- Each step of the classifier either leaves the failed bucket unchanged
or appends one annotated entry. -/
theorem classify_file_failed_shape (self : MetadataProcessor) (year : Nat)
    (r : YearDirectoryReport) (e : FileEntry) :
    (classify_file self year r e).failed_to_read_files = r.failed_to_read_files
    ∨ ∃ res : ProcessingResult, (classify_file self year r e).failed_to_read_files
        = r.failed_to_read_files ++ [e.path ++ " (error code: " ++ res.name ++ ")"] := by
  unfold classify_file
  split
  · exact Or.inl rfl
  · dsimp only
    split
    · exact Or.inl rfl
    · split
      · exact Or.inl rfl
      · split
        · exact Or.inl rfl
        · exact Or.inr ⟨_, rfl⟩

/-- Every entry of the classifier's failed bucket is a path annotated with
a result name. -/
theorem classify_directory_failed_shape (self : MetadataProcessor)
    (files : List FileEntry) (year : Nat) :
    ∀ x ∈ (classify_directory self files year).failed_to_read_files,
      ∃ path res, x = path ++ " (error code: " ++ ProcessingResult.name res ++ ")" := by
  unfold classify_directory
  suffices h : ∀ r0 : YearDirectoryReport,
      (∀ x ∈ r0.failed_to_read_files,
        ∃ path res, x = path ++ " (error code: " ++ ProcessingResult.name res ++ ")") →
      ∀ x ∈ (files.foldl (classify_file self year) r0).failed_to_read_files,
        ∃ path res, x = path ++ " (error code: " ++ ProcessingResult.name res ++ ")" by
    exact h {} (by simp)
  induction files with
  | nil => exact fun r0 h0 => h0
  | cons e files ih =>
    intro r0 h0
    simp only [List.foldl_cons]
    apply ih
    rcases classify_file_failed_shape self year r0 e with he | ⟨res, he⟩
    · rw [he]
      exact h0
    · rw [he]
      intro x hx
      rcases List.mem_append.mp hx with hx | hx
      · exact h0 x hx
      · rw [List.mem_singleton.mp hx]
        exact ⟨e.path, res, rfl⟩

/-- C6: for every year and classified directory, `process_directory`
overwrites the per-year report file with exactly one entry per line, in the
order collected, when its bucket is non-empty, and deletes any pre-existing
file of that name otherwise; the failed-files report holds entries of the
form `"{path} (error code: {ResultName})"`. A directory with no issues
therefore leaves no stale report file. -/
theorem report_writer_contract (self : MetadataProcessor) (files : List FileEntry)
    (year : Nat) (fs : FS) :
    (fsLookup (self.process_directory files year fs) (non_matching_output_file year)
      = if 0 < (classify_directory self files year).non_matching_files.length
        then some (joinLines (classify_directory self files year).non_matching_files)
        else none)
    ∧ (fsLookup (self.process_directory files year fs) (failed_output_file year)
      = if 0 < (classify_directory self files year).failed_to_read_files.length
        then some (joinLines (classify_directory self files year).failed_to_read_files)
        else none)
    ∧ (∀ x ∈ (classify_directory self files year).failed_to_read_files,
        ∃ path res, x = path ++ " (error code: " ++ ProcessingResult.name res ++ ")") := by
  refine ⟨?_, ?_, classify_directory_failed_shape self files year⟩
  · rw [process_directory_fsLookup, if_neg (output_files_ne year), if_pos rfl]
  · rw [process_directory_fsLookup, if_pos rfl]

/-- Witness for C6 at concrete inputs: a directory holding one unreadable
file deletes the stale non-matching report and writes the failed report. -/
theorem report_writer_contract_witness :
    fsLookup (MetadataProcessor.init.process_directory [⟨"x.bmp", {}⟩] 2020
        [("2020_non_matching_files.txt", "stale")]) (non_matching_output_file 2020) = none
    ∧ fsLookup (MetadataProcessor.init.process_directory [⟨"x.bmp", {}⟩] 2020
        [("2020_non_matching_files.txt", "stale")]) (failed_output_file 2020)
      = some "x.bmp (error code: FAILED_TO_READ)\n" := by
  have h := report_writer_contract MetadataProcessor.init [⟨"x.bmp", {}⟩] 2020
    [("2020_non_matching_files.txt", "stale")]
  refine ⟨?_, ?_⟩
  · rw [h.1]
    rfl
  · rw [h.2.1]
    rfl

/-- C9: running the Directory Classifier twice on an unchanged directory
(the same enumerated files) with the same target year produces
byte-identical report files: after a second `process_directory` run, every
file of the modelled file system reads exactly as after the first run. -/
theorem process_directory_idempotent (self : MetadataProcessor) (files : List FileEntry)
    (year : Nat) (fs : FS) (n : String) :
    fsLookup (self.process_directory files year
        (self.process_directory files year fs)) n
      = fsLookup (self.process_directory files year fs) n := by
  simp only [process_directory_fsLookup]
  split_ifs <;> rfl

end PhotoSanitizer
